import Mathlib

/-!
Shallow embedding of the Coco-bot per-guild voice playback session and its
command layer (`src/extensions/music/music.py`).

The command layer (`Music` cog) is embedded directly from the source.  The
session object (`VoiceState`, file `voicestate.py`) is not part of the source
tree, so its operations (`is_playing`, `is_paused`, `stop`, `pause`, `resume`,
`add_song`, the song queue's `remove`) are modelled from the specification and
marked as such in their doc comments.
-/

namespace CocoBot

/-- A playable track: immutable value with a title and a source URL. -/
structure Track where
  title : String
  url : String
deriving DecidableEq, Repr

/-- The transport state of a playback session: `Idle`, `Playing` or `Paused`. -/
inductive PlayState
  | Idle
  | Playing
  | Paused
deriving DecidableEq, Repr

/-- Modelled from the spec: the PlaybackSession (`VoiceState` in the source,
file `voicestate.py`, absent from `src/`): voice connection handle (the
channel id when connected), ordered track queue, optional current track,
transport state, loop flag and volume. -/
structure VoiceState where
  voice : Option Nat
  songs : List Track
  current : Option Track
  playback : PlayState
  loopCurrent : Bool
  volume : Rat
deriving DecidableEq, Repr

/-- Modelled from the spec: a fresh session (`VoiceState(bot, ctx)` in
`voicestate.py`, absent from `src/`) is Idle with an empty queue, no current
track and no voice connection.  The spec does not fix the initial volume; any
value in [0, 2] works, we pick 1/2. -/
def VoiceState.init : VoiceState :=
  { voice := none
    songs := []
    current := none
    playback := PlayState.Idle
    loopCurrent := false
    volume := 1/2 }

/-- Modelled from the spec: `VoiceState.is_playing` (in `voicestate.py`,
absent from `src/`) distinguishes Idle — "no connection or
connected-but-nothing-playing" — from the two states with a live stream. -/
def VoiceState.is_playing (s : VoiceState) : Bool :=
  match s.playback with
  | PlayState.Idle => false
  | PlayState.Playing => true
  | PlayState.Paused => true

/-- Modelled from the spec: `VoiceState.is_paused` (in `voicestate.py`,
absent from `src/`) holds exactly in the `Paused` state. -/
def VoiceState.is_paused (s : VoiceState) : Bool :=
  match s.playback with
  | PlayState.Paused => true
  | _ => false

/-- Replies the command layer sends back to the invoking channel, one
constructor per distinct message/embed/reaction in `music.py`. -/
inductive Reply
  | nothingPlaying
  | alreadyPaused
  | notPaused
  | invalidPosition
  | emptyQueue
  | volumeIs (percent : Rat)
  | volumeOutOfRange
  | notInVoice
  | stopBothering
  | enqueued (t : Track)
  | errorProcessing (err : String)
  | queueEmbed (items : List (Int × Track)) (page : Int) (pages : Nat)
  | reaction (emoji : String)
deriving DecidableEq, Repr

/-- Observable side effects on the voice connection / resolver, used to state
ordering properties of the `play` command. -/
inductive Effect
  | connected (ch : Nat)
  | moved (ch : Nat)
  | resolveAttempt (q : String)
  | enqueuedTrack (t : Track)
deriving DecidableEq, Repr

/-- Modelled from the spec: the song queue's zero-based `remove`
(`SongQueue.remove` in `voicestate.py`, absent from `src/`): out-of-range
indices fail (the command layer catches `IndexError`), in-range indices remove
and return the element, preserving the relative order of the rest. -/
def queueRemove (songs : List Track) (idx : Int) : Option (Track × List Track) :=
  if idx < 0 then none
  else
    match songs[idx.toNat]? with
    | none => none
    | some t => some (t, songs.eraseIdx idx.toNat)

/-- `Music.remove` from `music.py`: calls `songs.remove(index - 1)` and reacts
with a checkmark; on `IndexError` replies "Invalid position." and leaves the
queue alone. -/
def Music.remove (s : VoiceState) (index : Int) : VoiceState × List Reply :=
  match queueRemove s.songs (index - 1) with
  | none => (s, [Reply.invalidPosition])
  | some (_, songs2) => ({ s with songs := songs2 }, [Reply.reaction "✅"])

/-- Modelled from the spec: `VoiceState.stop` (in `voicestate.py`, absent from
`src/`): valid from any state, clears the entire queue, clears `current`,
stops any active stream (second component counts the stop calls issued: one
when a stream for the current track exists, zero otherwise), transitions to
Idle, and does not disconnect the voice connection. -/
def VoiceState.stopSession (s : VoiceState) : VoiceState × Nat :=
  ({ s with songs := [], current := none, playback := PlayState.Idle },
   if s.current.isSome then 1 else 0)

/-- Modelled from the spec: `VoiceState.pause` (in `voicestate.py`, absent
from `src/`) pauses the live stream, transitioning to `Paused`. -/
def VoiceState.pauseStream (s : VoiceState) : VoiceState :=
  { s with playback := PlayState.Paused }

/-- Modelled from the spec: `VoiceState.resume` (in `voicestate.py`, absent
from `src/`) resumes the paused stream, transitioning to `Playing`. -/
def VoiceState.resumeStream (s : VoiceState) : VoiceState :=
  { s with playback := PlayState.Playing }

/-- `Music.stop` from `music.py`: gated by `_is_playing` (which replies
"Nothing is playing." when false); when playing, calls `voice_state.stop()`
and reacts. Third component counts stream-stop calls issued. -/
def Music.stop (s : VoiceState) : VoiceState × List Reply × Nat :=
  if s.is_playing then
    let (s2, n) := s.stopSession
    (s2, [Reply.reaction "⏹"], n)
  else (s, [Reply.nothingPlaying], 0)

/-- `Music.pause` from `music.py`: gated by `_is_playing`; replies "Already
paused." from `Paused`; otherwise pauses and reacts. -/
def Music.pause (s : VoiceState) : VoiceState × List Reply :=
  if s.is_playing then
    if s.is_paused then (s, [Reply.alreadyPaused])
    else (s.pauseStream, [Reply.reaction "⏸"])
  else (s, [Reply.nothingPlaying])

/-- `Music.resume` from `music.py`: gated by `_is_playing`; replies "Not
paused." when not in `Paused`; otherwise resumes and reacts. -/
def Music.resume (s : VoiceState) : VoiceState × List Reply :=
  if s.is_playing then
    if !s.is_paused then (s, [Reply.notPaused])
    else (s.resumeStream, [Reply.reaction "▶️"])
  else (s, [Reply.nothingPlaying])

/-- A track used in concrete test states. -/
def tA : Track := ⟨"alpha", "https://e/a"⟩

/-- A track used in concrete test states. -/
def tB : Track := ⟨"beta", "https://e/b"⟩

/-- A track used in concrete test states. -/
def tC : Track := ⟨"gamma", "https://e/c"⟩

/-- A concrete session in `Playing` state with two queued tracks. -/
def playingS : VoiceState :=
  { voice := some 7
    songs := [tB, tC]
    current := some tA
    playback := PlayState.Playing
    loopCurrent := false
    volume := 1 }

/-- A concrete session in `Paused` state. -/
def pausedS : VoiceState :=
  { playingS with playback := PlayState.Paused }

/-- A concrete Idle session: connected, empty queue, no current track. -/
def idleS : VoiceState :=
  { voice := some 7
    songs := []
    current := none
    playback := PlayState.Idle
    loopCurrent := false
    volume := 1 }

/-- `Music.volume` from `music.py`: gated by `_is_playing`; with no argument
reports the current volume as a percentage; with an argument v it sets
`volume = v / 100` when 0 ≤ v ≤ 200 and reports the new percentage, otherwise
replies "Volume must be between 0 and 200 %" and changes nothing. -/
def Music.volume (s : VoiceState) (vol : Option Int) : VoiceState × List Reply :=
  if s.is_playing then
    match vol with
    | none => (s, [Reply.volumeIs (s.volume * 100)])
    | some v =>
      if 0 ≤ v ∧ v ≤ 200 then
        ({ s with volume := (v : Rat) / 100 },
         [Reply.volumeIs ((v : Rat) / 100 * 100)])
      else (s, [Reply.volumeOutOfRange])
  else (s, [Reply.nothingPlaying])

/-- The zero-clamped index normalisation Python applies to a slice bound:
negative bounds count from the end (clamped below at 0), non-negative bounds
are clamped above at the length. -/
def pyIdx (len : Nat) (i : Int) : Nat :=
  if i < 0 then (max ((len : Int) + i) 0).toNat else min i.toNat len

/-- Python list slicing `l[a:b]` on a list of tracks. -/
def pySlice (l : List Track) (a b : Int) : List Track :=
  (l.take (pyIdx l.length b)).drop (pyIdx l.length a)

/-- Python `enumerate(xs, start=k)` followed by the display label `i + 1`
used in `Music.queue`: pairs each track with its 1-based queue position. -/
def enumFrom : Int → List Track → List (Int × Track)
  | _, [] => []
  | k, t :: ts => (k + 1, t) :: enumFrom (k + 1) ts

/-- `Music.queue` from `music.py`: replies "Empty queue" when the queue is
empty; otherwise computes `pages = ceil(len/10)`, slices
`songs[(page-1)*10 : (page-1)*10+10]` and sends an embed listing the slice
with 1-based labels and a `page/pages` footer.  No index validation is
performed and the queue is never mutated. -/
def Music.queue (s : VoiceState) (page : Int) : VoiceState × List Reply :=
  if s.songs.length = 0 then (s, [Reply.emptyQueue])
  else
    let start : Int := (page - 1) * 10
    let stop : Int := start + 10
    (s, [Reply.queueEmbed (enumFrom start (pySlice s.songs start stop)) page
          ((s.songs.length + 9) / 10)])

/-- A concrete session with three tracks in the queue. -/
def threeQueueS : VoiceState :=
  { playingS with songs := [tA, tB, tC] }

/-- The slice of the command context the embedded commands read: the voice
channel of the invoking user, when they are in one. -/
structure Ctx where
  authorChannel : Option Nat
deriving DecidableEq, Repr

/-- `Music.cog_check` from `music.py`: commands only run when the invoking
user is in a voice channel. -/
def Music.cog_check (ctx : Ctx) : Bool :=
  ctx.authorChannel.isSome

/-- `Music._join` from `music.py`: refuses when neither an explicit channel
nor the author's voice channel exists; otherwise moves the existing
connection to the destination, or connects when there is none. -/
def Music._join (ctx : Ctx) (channel : Option Nat) (s : VoiceState) :
    VoiceState × List Reply × List Effect :=
  match channel, ctx.authorChannel with
  | none, none => (s, [Reply.stopBothering], [])
  | _, _ =>
    let dest := (channel.getD (ctx.authorChannel.getD 0))
    if s.voice.isSome then
      ({ s with voice := some dest }, [], [Effect.moved dest])
    else
      ({ s with voice := some dest }, [], [Effect.connected dest])

/-- Modelled from the spec: `startNext` (the play-next loop step, in
`voicestate.py`, absent from `src/`): with loop enabled and a current track
the current track is replayed without consuming the queue; otherwise the
front of the queue is popped and becomes `current` (state Playing), or the
session goes Idle with no current track when the queue is empty. -/
def VoiceState.startNext (s : VoiceState) : VoiceState :=
  if s.loopCurrent && s.current.isSome then
    { s with playback := PlayState.Playing }
  else
    match s.songs with
    | [] => { s with current := none, playback := PlayState.Idle }
    | t :: rest =>
      { s with songs := rest, current := some t, playback := PlayState.Playing }

/-- Modelled from the spec: `VoiceState.add_song` (in `voicestate.py`,
absent from `src/`): resolves the query through the external resolver
(propagating a resolution failure unchanged), appends the resolved track to
the queue, triggers `startNext` when the session is Idle, and returns the
enqueued track. -/
def VoiceState.add_song (resolve : String → Except String Track)
    (s : VoiceState) (q : String) : Except String (Track × VoiceState) :=
  match resolve q with
  | Except.error e => Except.error e
  | Except.ok t =>
    let s1 : VoiceState := { s with songs := s.songs ++ [t] }
    if s1.playback = PlayState.Idle then Except.ok (t, s1.startNext)
    else Except.ok (t, s1)

/-- `Music.play` from `music.py`: joins the author's voice channel first when
the session has no voice connection, then resolves and enqueues the query
inside `add_song`; a resolution error is rendered to the caller, a success is
announced with the enqueued track's embed.  The third component is the
ordered trace of connection/resolver effects. -/
def Music.play (resolve : String → Except String Track) (ctx : Ctx)
    (s : VoiceState) (q : String) : VoiceState × List Reply × List Effect :=
  let j := if s.voice.isNone then Music._join ctx none s else (s, [], [])
  match (j.1).add_song resolve q with
  | Except.error e =>
    (j.1, j.2.1 ++ [Reply.errorProcessing e], j.2.2 ++ [Effect.resolveAttempt q])
  | Except.ok (t, s2) =>
    (s2, j.2.1 ++ [Reply.enqueued t],
     j.2.2 ++ [Effect.resolveAttempt q, Effect.enqueuedTrack t])

/-- The process-wide `Music.voice_states` dictionary: guild id to session,
embedded as an association list whose keys are unique. -/
def voiceStatesGet : List (Nat × VoiceState) → Nat → Option VoiceState
  | [], _ => none
  | (k, v) :: rest, g => if k = g then some v else voiceStatesGet rest g

/-- `del self.voice_states[guild.id]`: drop the entry for a guild. -/
def voiceStatesDel : List (Nat × VoiceState) → Nat → List (Nat × VoiceState)
  | [], _ => []
  | (k, v) :: rest, g =>
    if k = g then voiceStatesDel rest g else (k, v) :: voiceStatesDel rest g

/-- `Music._get_voice_state` from `music.py`: returns the guild's existing
session, or creates, stores and returns a fresh one. -/
def Music._get_voice_state (reg : List (Nat × VoiceState)) (g : Nat) :
    VoiceState × List (Nat × VoiceState) :=
  match voiceStatesGet reg g with
  | some s => (s, reg)
  | none => (VoiceState.init, (g, VoiceState.init) :: reg)

/-- `Music.leave` from `music.py`: run on the session fetched by
`cog_before_invoke`; replies "I am not in a voice channel." when the session
has no voice connection; otherwise stops the session (clearing it and
stopping any active stream) and deletes the guild's registry entry.  Third
component counts stream-stop calls issued. -/
def Music.leave (reg : List (Nat × VoiceState)) (g : Nat) :
    List (Nat × VoiceState) × List Reply × Nat :=
  let (s, reg1) := Music._get_voice_state reg g
  if s.voice.isNone then (reg1, [Reply.notInVoice], 0)
  else
    let (_, n) := s.stopSession
    (voiceStatesDel reg1 g, [], n)

/-- A resolver used in concrete tests: fails on the query "bad", resolves
anything else to the track `tA`. -/
def testResolve (q : String) : Except String Track :=
  if q = "bad" then Except.error "boom" else Except.ok tA

/-- A concrete registry holding one connected session for guild 5. -/
def regS : List (Nat × VoiceState) := [(5, playingS)]

/-- A concrete context whose author sits in voice channel 9. -/
def ctx9 : Ctx := ⟨some 9⟩

/-- A concrete disconnected Idle session. -/
def disconnectedS : VoiceState :=
  { idleS with voice := none }

/-- C1: for a queue of size n and 1-based index i, `remove` fails (reply
"Invalid position.", queue and session unchanged) when i < 1 or i > n;
when 1 ≤ i ≤ n it removes exactly the element at position i, preserving the
relative order of the rest, and the queue-level `remove` returns that
element. -/
theorem remove_spec (s : VoiceState) (i : Int) :
    (Music.remove s i =
      if 1 ≤ i ∧ i ≤ (s.songs.length : Int) then
        ({ s with songs := s.songs.take (i - 1).toNat ++ s.songs.drop i.toNat },
         [Reply.reaction "✅"])
      else (s, [Reply.invalidPosition])) ∧
    ((queueRemove s.songs (i - 1)).map Prod.fst =
      if 1 ≤ i ∧ i ≤ (s.songs.length : Int) then s.songs[(i - 1).toNat]? else none) := by
  have hco : (i - 1).toNat = i.toNat - 1 := by omega
  by_cases h1 : 1 ≤ i
  · by_cases h2 : i ≤ (s.songs.length : Int)
    · have hlt : i.toNat - 1 < s.songs.length := by omega
      have hnn : ¬ (i - 1 < 0) := by omega
      obtain ⟨t, ht⟩ : ∃ t, s.songs[i.toNat - 1]? = some t :=
        ⟨s.songs[i.toNat - 1], List.getElem?_eq_getElem hlt⟩
      have herase : s.songs.eraseIdx (i.toNat - 1) =
          s.songs.take (i.toNat - 1) ++ s.songs.drop i.toNat := by
        rw [List.eraseIdx_eq_take_drop_succ]
        congr 1
        congr 1
        omega
      constructor
      · simp [Music.remove, queueRemove, hnn, ht, herase, h1, h2, hco]
      · simp [queueRemove, hnn, ht, h1, h2, hco]
    · have hnone : s.songs[i.toNat - 1]? = none := by
        exact List.getElem?_eq_none (by omega)
      constructor
      · simp [Music.remove, queueRemove, hnone, h1, h2, hco]
      · simp [queueRemove, hnone, h1, h2, hco]
  · have hneg : i - 1 < 0 := by omega
    constructor
    · simp [Music.remove, queueRemove, hneg, h1]
    · simp [queueRemove, hneg, h1]

/-- C2: from every playback state, after the stop command the session is
Idle with an empty queue and no current track, the voice connection is
untouched (no disconnect), and an active stream is stopped exactly once
(zero stop calls when no stream exists).  The hypotheses are the session
invariants: an Idle session has an empty queue and no current track, and a
non-Idle session has a current track (whose stream is the active one). -/
theorem stop_spec (s : VoiceState)
    (hIdle : s.playback = PlayState.Idle → s.songs = [] ∧ s.current = none)
    (hCur : s.playback ≠ PlayState.Idle → s.current.isSome = true) :
    (Music.stop s).1.playback = PlayState.Idle ∧
    (Music.stop s).1.songs = [] ∧
    (Music.stop s).1.current = none ∧
    (Music.stop s).1.voice = s.voice ∧
    (Music.stop s).2.2 = (if s.current.isSome then 1 else 0) ∧
    (s.playback ≠ PlayState.Idle → (Music.stop s).2.2 = 1) := by
  cases h : s.playback
  · obtain ⟨h1, h2⟩ := hIdle h
    simp [Music.stop, VoiceState.is_playing, VoiceState.stopSession, h, h1, h2]
  · have hc := hCur (by rw [h]; intro hx; cases hx)
    simp [Music.stop, VoiceState.is_playing, VoiceState.stopSession, h, hc]
  · have hc := hCur (by rw [h]; intro hx; cases hx)
    simp [Music.stop, VoiceState.is_playing, VoiceState.stopSession, h, hc]

/-- C2 witness: the stop theorem applied to the concrete `Playing` session
with an active stream, whose stream is stopped exactly once. -/
theorem stop_spec_witness :
    (Music.stop playingS).1.playback = PlayState.Idle ∧
    (Music.stop playingS).1.songs = [] ∧
    (Music.stop playingS).1.current = none ∧
    (Music.stop playingS).1.voice = playingS.voice ∧
    (Music.stop playingS).2.2 = (if playingS.current.isSome then 1 else 0) ∧
    (playingS.playback ≠ PlayState.Idle → (Music.stop playingS).2.2 = 1) :=
  stop_spec playingS (by intro h; simp [playingS] at h) (by intro h; rfl)

/-- C5: the pause command succeeds exactly from `Playing` (transitioning to
`Paused` with a reaction); from `Paused` it is a no-op replying "Already
paused."; from `Idle` it is a no-op replying the invalid-state message
"Nothing is playing."; in both failure cases the session is unchanged. -/
theorem pause_spec (s : VoiceState) :
    Music.pause s =
      if s.playback = PlayState.Playing then
        ({ s with playback := PlayState.Paused }, [Reply.reaction "⏸"])
      else if s.playback = PlayState.Paused then (s, [Reply.alreadyPaused])
      else (s, [Reply.nothingPlaying]) := by
  cases h : s.playback <;>
    simp [Music.pause, VoiceState.is_playing, VoiceState.is_paused,
      VoiceState.pauseStream, h]

/-- C6 counterexample: called on a concrete Idle session (which is not
`Paused`), the resume command replies "Nothing is playing.", not the
"Not paused." report the claim requires for every non-paused state. -/
theorem resume_idle_counterexample :
    idleS.playback ≠ PlayState.Paused ∧
    Music.resume idleS = (idleS, [Reply.nothingPlaying]) ∧
    Reply.notPaused ∉ (Music.resume idleS).2 := by
  refine ⟨by decide, rfl, by decide⟩

/-- C6 amended: the resume command succeeds exactly from `Paused`
(transitioning to `Playing` with a reaction); from `Playing` it is a no-op
replying "Not paused."; from `Idle` it is a no-op replying "Nothing is
playing."; in both failure cases the session is unchanged. -/
theorem resume_spec (s : VoiceState) :
    Music.resume s =
      if s.playback = PlayState.Paused then
        ({ s with playback := PlayState.Playing }, [Reply.reaction "▶️"])
      else if s.playback = PlayState.Playing then (s, [Reply.notPaused])
      else (s, [Reply.nothingPlaying]) := by
  cases h : s.playback <;>
    simp [Music.resume, VoiceState.is_playing, VoiceState.is_paused,
      VoiceState.resumeStream, h]

/-- Helper: for a non-negative start bound, the Python slice
`l[a : a + 10]` is exactly "drop a, take 10". -/
theorem pySlice_window (l : List Track) (a : Int) (ha : 0 ≤ a) :
    pySlice l a (a + 10) = (l.drop a.toNat).take 10 := by
  have hna : ¬ (a < 0) := by omega
  have hnb : ¬ (a + 10 < 0) := by omega
  have hco : (a + 10).toNat = a.toNat + 10 := by omega
  simp only [pySlice, pyIdx, if_neg hna, if_neg hnb, hco]
  rw [List.drop_take]
  rcases le_or_lt a.toNat l.length with h | h
  · rw [min_eq_left h, List.take_eq_take]
    simp only [List.length_drop]
    omega
  · have hd : l.drop a.toNat = [] := List.drop_eq_nil_iff.mpr (by omega)
    have hmin : min a.toNat l.length = l.length := by omega
    have hmin2 : min (a.toNat + 10) l.length = l.length := by omega
    rw [hmin, hmin2, Nat.sub_self, List.take_zero, hd, List.take_nil]

/-- C3 counterexample: on a concrete 3-track queue, page 5 is outside the
valid range (the only page is 1), yet the queue command does not report any
error: it replies with a normal embed showing an empty slice, and the queue
is untouched. -/
theorem queue_page_counterexample :
    Music.queue threeQueueS 5 = (threeQueueS, [Reply.queueEmbed [] 5 1]) ∧
    Reply.invalidPosition ∉ (Music.queue threeQueueS 5).2 := by
  exact ⟨rfl, by decide⟩

/-- C3 amended: the queue paging command never mutates the queue and never
reports an out-of-range error (out-of-range pages simply display an empty
slice); for every page ≥ 1 on a non-empty queue it replies with the 1-based
display slice of up to 10 tracks starting at queue position
(page - 1) * 10 + 1, labelled with their true 1-based queue positions, and
the `page/ceil(n/10)` footer. -/
theorem queue_spec (s : VoiceState) (page : Int) :
    (Music.queue s page).1 = s ∧
    Reply.invalidPosition ∉ (Music.queue s page).2 ∧
    (1 ≤ page → s.songs ≠ [] →
      (Music.queue s page).2 =
        [Reply.queueEmbed
          (enumFrom ((page - 1) * 10)
            ((s.songs.drop ((page - 1) * 10).toNat).take 10))
          page ((s.songs.length + 9) / 10)]) := by
  by_cases h : s.songs.length = 0
  · refine ⟨by simp [Music.queue, h], by simp [Music.queue, h], ?_⟩
    intro _ hne
    exact absurd (List.length_eq_zero.mp h) hne
  · refine ⟨by simp [Music.queue, h], by simp [Music.queue, h], ?_⟩
    intro hp _
    have hw := pySlice_window s.songs ((page - 1) * 10) (by nlinarith)
    simp [Music.queue, h, hw]

/-- C3 witness: the amended queue theorem applied to the concrete 3-track
queue at page 1, whose hypotheses (page ≥ 1, non-empty queue) hold. -/
theorem queue_spec_witness :
    (Music.queue threeQueueS 1).1 = threeQueueS ∧
    Reply.invalidPosition ∉ (Music.queue threeQueueS 1).2 ∧
    (Music.queue threeQueueS 1).2 =
      [Reply.queueEmbed
        (enumFrom ((1 - 1) * 10)
          ((threeQueueS.songs.drop (((1 : Int) - 1) * 10).toNat).take 10))
        1 ((threeQueueS.songs.length + 9) / 10)] := by
  obtain ⟨h1, h2, h3⟩ := queue_spec threeQueueS 1
  exact ⟨h1, h2, h3 (by decide) (by decide)⟩

/-- C4 counterexample: on a concrete Idle session (volume 1), the volume
command with argument 150 is blocked by the `_is_playing` gate: it replies
"Nothing is playing." and the session volume stays 1 instead of becoming
1.5, refuting "valid in every state". -/
theorem volume_gate_counterexample :
    Music.volume idleS (some 150) = (idleS, [Reply.nothingPlaying]) ∧
    (Music.volume idleS (some 150)).1.volume = 1 ∧
    (Music.volume idleS (some 150)).1.volume ≠ 3 / 2 := by
  refine ⟨rfl, rfl, by norm_num [Music.volume, idleS, VoiceState.is_playing]⟩

/-- C4 amended: when something is playing (the `_is_playing` gate passes,
i.e. the state is Playing or Paused), setVolume(v) with v < 0 or v > 200 is
rejected with the out-of-range reply and the session is unchanged, and with
0 ≤ v ≤ 200 it sets the session volume to v / 100; in particular
setVolume(250) is rejected and setVolume(150) yields volume 1.5.  When
nothing is playing the command is a no-op replying "Nothing is playing.". -/
theorem volume_spec (s : VoiceState) (v : Int) (h : s.is_playing = true) :
    ((v < 0 ∨ 200 < v) → Music.volume s (some v) = (s, [Reply.volumeOutOfRange])) ∧
    (0 ≤ v → v ≤ 200 →
      Music.volume s (some v) =
        ({ s with volume := (v : Rat) / 100 },
         [Reply.volumeIs ((v : Rat) / 100 * 100)])) ∧
    Music.volume s (some 250) = (s, [Reply.volumeOutOfRange]) ∧
    (Music.volume s (some 150)).1.volume = 3 / 2 := by
  refine ⟨?_, ?_, ?_, ?_⟩
  · intro hv
    have hno : ¬ ((0 : Int) ≤ v ∧ v ≤ 200) := by omega
    simp [Music.volume, h, hno]
  · intro h0 h200
    simp [Music.volume, h, h0, h200]
  · have hno : ¬ ((0 : Int) ≤ 250 ∧ (250 : Int) ≤ 200) := by omega
    simp [Music.volume, h, hno]
  · have hyes : (0 : Int) ≤ 150 ∧ (150 : Int) ≤ 200 := by omega
    simp [Music.volume, h, hyes]
    norm_num

/-- C4 witness: the amended volume theorem applied to the concrete Playing
session: 250 is rejected, 150 yields volume 1.5. -/
theorem volume_spec_witness :
    Music.volume playingS (some 250) = (playingS, [Reply.volumeOutOfRange]) ∧
    (Music.volume playingS (some 150)).1.volume = 3 / 2 :=
  ⟨(volume_spec playingS 250 rfl).2.2.1, (volume_spec playingS 150 rfl).2.2.2⟩

/-- C10 counterexample: on a concrete Idle session, the volume command with
no argument does not report the current volume: the `_is_playing` gate makes
it reply "Nothing is playing." instead (all session fields are still
unchanged). -/
theorem volume_report_counterexample :
    Music.volume idleS none = (idleS, [Reply.nothingPlaying]) ∧
    Reply.volumeIs (idleS.volume * 100) ∉ (Music.volume idleS none).2 := by
  exact ⟨rfl, by decide⟩

/-- C10 amended: the volume command with no argument never changes any
session field; it reports the current volume as a percentage exactly when
something is playing, and replies "Nothing is playing." otherwise. -/
theorem volume_noarg_spec (s : VoiceState) :
    (Music.volume s none).1 = s ∧
    (Music.volume s none).2 =
      (if s.is_playing then [Reply.volumeIs (s.volume * 100)]
       else [Reply.nothingPlaying]) := by
  cases h : s.is_playing <;> simp [Music.volume, h]

/-- Helper: joining never touches the queue, current track, transport state,
volume or loop flag of the session — only the voice connection. -/
theorem join_frame (ctx : Ctx) (ch : Option Nat) (s : VoiceState) :
    (Music._join ctx ch s).1.songs = s.songs ∧
    (Music._join ctx ch s).1.current = s.current ∧
    (Music._join ctx ch s).1.playback = s.playback ∧
    (Music._join ctx ch s).1.volume = s.volume ∧
    (Music._join ctx ch s).1.loopCurrent = s.loopCurrent := by
  rcases ch with _ | c <;> rcases h : ctx.authorChannel with _ | a <;>
    simp [Music._join, h] <;> split <;> simp

/-- Helper: the play-next step never touches the voice connection. -/
theorem startNext_voice (s : VoiceState) : s.startNext.voice = s.voice := by
  unfold VoiceState.startNext
  split
  · rfl
  · split <;> rfl

/-- Helper: a successful `add_song` never touches the voice connection. -/
theorem add_song_voice (resolve : String → Except String Track)
    (s : VoiceState) (q : String) (t : Track) (s2 : VoiceState)
    (h : s.add_song resolve q = Except.ok (t, s2)) : s2.voice = s.voice := by
  cases hr : resolve q with
  | error e => simp [VoiceState.add_song, hr] at h
  | ok t0 =>
    simp only [VoiceState.add_song, hr] at h
    split at h
    · cases h
      rw [startNext_voice]
    · cases h
      rfl

/-- C7: a failure of the external resolver is propagated unchanged by
`add_song` to its caller (the play command), which leaves the queue, current
track, transport state, volume and loop flag untouched and renders the
error; a successful resolution makes `add_song` return the resolved track,
which has entered the session (still queued, or already promoted to the
current track by the auto-start). -/
theorem add_song_spec (resolve : String → Except String Track) (ctx : Ctx)
    (s : VoiceState) (q : String) :
    (∀ e, resolve q = Except.error e →
      s.add_song resolve q = Except.error e ∧
      (Music.play resolve ctx s q).1.songs = s.songs ∧
      (Music.play resolve ctx s q).1.current = s.current ∧
      (Music.play resolve ctx s q).1.playback = s.playback ∧
      (Music.play resolve ctx s q).1.volume = s.volume ∧
      (Music.play resolve ctx s q).1.loopCurrent = s.loopCurrent ∧
      Reply.errorProcessing e ∈ (Music.play resolve ctx s q).2.1) ∧
    (∀ t, resolve q = Except.ok t →
      ∃ s2, s.add_song resolve q = Except.ok (t, s2) ∧
        (t ∈ s2.songs ∨ s2.current = some t)) := by
  constructor
  · intro e he
    have hadd : ∀ s0 : VoiceState, s0.add_song resolve q = Except.error e := by
      intro s0
      simp [VoiceState.add_song, he]
    refine ⟨hadd s, ?_⟩
    by_cases hv : s.voice.isNone
    · obtain ⟨f1, f2, f3, f4, f5⟩ := join_frame ctx none s
      simp [Music.play, hv, hadd, f1, f2, f3, f4, f5]
    · simp [Music.play, hv, hadd]
  · intro t ht
    simp only [VoiceState.add_song, ht]
    split
    · refine ⟨_, rfl, ?_⟩
      cases hl : s.loopCurrent <;> cases hc : s.current <;>
        cases hs : s.songs <;>
          simp [VoiceState.startNext, hl, hc, hs]
    · refine ⟨_, rfl, Or.inl ?_⟩
      simp

/-- C7 witness: the add-song theorem applied to the failing query "bad" on a
concrete disconnected session and to a succeeding query on the concrete
playing session. -/
theorem add_song_spec_witness :
    disconnectedS.add_song testResolve "bad" = Except.error "boom" ∧
    (∃ s2, playingS.add_song testResolve "hit" = Except.ok (tA, s2) ∧
      (tA ∈ s2.songs ∨ s2.current = some tA)) :=
  ⟨((add_song_spec testResolve ctx9 disconnectedS "bad").1 "boom" rfl).1,
   (add_song_spec testResolve ctx9 playingS "hit").2 tA rfl⟩

/-- C9: when the invoking user sits in voice channel c (the cog-wide check
`cog_check` guarantees this), a play command always ends with a live voice
connection; when the session starts without one, the very first effect is
connecting to channel c, strictly before the resolver is consulted and the
track is enqueued. -/
theorem play_connects_spec (resolve : String → Except String Track) (ctx : Ctx)
    (s : VoiceState) (q : String) (c : Nat)
    (hcheck : ctx.authorChannel = some c) :
    (Music.play resolve ctx s q).1.voice.isSome = true ∧
    (s.voice = none →
      (Music.play resolve ctx s q).1.voice = some c ∧
      ∃ rest, (Music.play resolve ctx s q).2.2 =
        Effect.connected c :: Effect.resolveAttempt q :: rest) := by
  by_cases hv : s.voice = none
  · have hj : Music._join ctx none s =
        ({ s with voice := some c }, [], [Effect.connected c]) := by
      simp [Music._join, hcheck, hv]
    have hvn : s.voice.isNone = true := by simp [hv]
    cases hr : (({ s with voice := some c } : VoiceState)).add_song resolve q with
    | error e =>
      constructor
      · simp [Music.play, hvn, hj, hr]
      · intro _
        refine ⟨by simp [Music.play, hvn, hj, hr], [], ?_⟩
        simp [Music.play, hvn, hj, hr]
    | ok p =>
      obtain ⟨t, s2⟩ := p
      have hvoice : s2.voice = some c := by
        rw [add_song_voice resolve _ q t s2 hr]
      constructor
      · simp [Music.play, hvn, hj, hr, hvoice]
      · intro _
        refine ⟨by simp [Music.play, hvn, hj, hr, hvoice],
          [Effect.enqueuedTrack t], ?_⟩
        simp [Music.play, hvn, hj, hr]
  · obtain ⟨d, hd⟩ : ∃ d, s.voice = some d := by
      cases hs : s.voice
      · exact absurd hs hv
      · exact ⟨_, rfl⟩
    have hvn : s.voice.isNone = false := by simp [hd]
    refine ⟨?_, fun h => absurd h hv⟩
    cases hr : s.add_song resolve q with
    | error e => simp [Music.play, hvn, hr, hd]
    | ok p =>
      obtain ⟨t, s2⟩ := p
      have hvoice : s2.voice = some d := by
        rw [add_song_voice resolve _ q t s2 hr, hd]
      simp [Music.play, hvn, hr, hvoice]

/-- C9 witness: the theorem applied to the concrete disconnected session and
the resolver succeeding on the query "hit": the session connects to the
author's channel 9 first, then resolves and enqueues. -/
theorem play_connects_spec_witness :
    (Music.play testResolve ctx9 disconnectedS "hit").1.voice.isSome = true ∧
    (Music.play testResolve ctx9 disconnectedS "hit").1.voice = some 9 ∧
    ∃ rest, (Music.play testResolve ctx9 disconnectedS "hit").2.2 =
      Effect.connected 9 :: Effect.resolveAttempt "hit" :: rest := by
  obtain ⟨h1, h2⟩ := play_connects_spec testResolve ctx9 disconnectedS "hit" 9 rfl
  obtain ⟨h3, h4⟩ := h2 rfl
  exact ⟨h1, h3, h4⟩

/-- Helper: the registry lookup misses exactly when the guild has no key in
the association list. -/
theorem voiceStatesGet_eq_none (reg : List (Nat × VoiceState)) (g : Nat) :
    voiceStatesGet reg g = none ↔ g ∉ reg.map Prod.fst := by
  induction reg with
  | nil => simp [voiceStatesGet]
  | cons p rest ih =>
    obtain ⟨k, v⟩ := p
    simp only [List.map_cons, List.mem_cons, voiceStatesGet]
    by_cases h : k = g
    · simp [h]
    · rw [if_neg h, ih]
      constructor
      · intro hx
        rintro (h1 | h2)
        · exact h h1.symm
        · exact hx h2
      · intro hx hm
        exact hx (Or.inr hm)

/-- Helper: after deleting a guild, its registry lookup misses. -/
theorem voiceStatesDel_get (reg : List (Nat × VoiceState)) (g : Nat) :
    voiceStatesGet (voiceStatesDel reg g) g = none := by
  induction reg with
  | nil => rfl
  | cons p rest ih =>
    obtain ⟨k, v⟩ := p
    by_cases h : k = g <;> simp [voiceStatesDel, voiceStatesGet, h, ih]

/-- C8: with unique registry keys, `_get_voice_state` returns the guild's
existing session unchanged, or stores exactly one fresh Idle session; either
way the registry afterwards has unique keys and exactly one entry for the
guild, and the lookup finds the returned session.  `leave` on a connected
session stops it (one stream-stop call when a stream is active) and deletes
the guild's entry, so the next `_get_voice_state` returns a freshly created
session. -/
theorem registry_spec (reg : List (Nat × VoiceState)) (g : Nat)
    (hnodup : (reg.map Prod.fst).Nodup) :
    (voiceStatesGet (Music._get_voice_state reg g).2 g =
      some (Music._get_voice_state reg g).1) ∧
    ((Music._get_voice_state reg g).2.map Prod.fst).Nodup ∧
    ((Music._get_voice_state reg g).2.map Prod.fst).count g = 1 ∧
    (∀ s0, voiceStatesGet reg g = some s0 →
      Music._get_voice_state reg g = (s0, reg)) ∧
    (voiceStatesGet reg g = none →
      Music._get_voice_state reg g = (VoiceState.init, (g, VoiceState.init) :: reg)) ∧
    (∀ s0, voiceStatesGet reg g = some s0 → s0.voice.isSome = true →
      (Music.leave reg g).1 = voiceStatesDel reg g ∧
      voiceStatesGet (Music.leave reg g).1 g = none ∧
      (Music.leave reg g).2.2 = (if s0.current.isSome then 1 else 0) ∧
      (Music._get_voice_state (Music.leave reg g).1 g).1 = VoiceState.init) := by
  cases hget : voiceStatesGet reg g with
  | none =>
    have hmem : g ∉ reg.map Prod.fst := (voiceStatesGet_eq_none reg g).mp hget
    have hred : Music._get_voice_state reg g =
        (VoiceState.init, (g, VoiceState.init) :: reg) := by
      simp [Music._get_voice_state, hget]
    refine ⟨?_, ?_, ?_, ?_, ?_, ?_⟩
    · rw [hred]
      simp [voiceStatesGet]
    · rw [hred]
      exact List.Nodup.cons hmem hnodup
    · rw [hred]
      simp [List.count_eq_zero_of_not_mem hmem]
    · intro s0 h0
      cases h0
    · intro _
      exact hred
    · intro s0 h0
      cases h0
  | some s1 =>
    have hmem : g ∈ reg.map Prod.fst := by
      by_contra hc
      rw [(voiceStatesGet_eq_none reg g).mpr hc] at hget
      cases hget
    have hred : Music._get_voice_state reg g = (s1, reg) := by
      simp [Music._get_voice_state, hget]
    refine ⟨?_, ?_, ?_, ?_, ?_, ?_⟩
    · rw [hred]
      exact hget
    · rw [hred]
      exact hnodup
    · rw [hred]
      exact List.count_eq_one_of_mem hnodup hmem
    · intro s0 h0
      cases h0
      exact hred
    · intro h0
      cases h0
    · intro s0 h0
      cases h0
      intro hvoice
      have hnn : s1.voice.isNone = false := by
        cases hs : s1.voice
        · rw [hs] at hvoice; cases hvoice
        · rfl
      have hleave : Music.leave reg g =
          (voiceStatesDel reg g, [], if s1.current.isSome then 1 else 0) := by
        simp [Music.leave, hred, hnn, VoiceState.stopSession]
      refine ⟨?_, ?_, ?_, ?_⟩
      · rw [hleave]
      · rw [hleave]
        exact voiceStatesDel_get reg g
      · rw [hleave]
      · rw [hleave]
        simp [Music._get_voice_state, voiceStatesDel_get]

/-- C8 witness: the registry theorem applied to the concrete one-guild
registry: after leave, guild 5 has no entry and the next lookup creates a
fresh session. -/
theorem registry_spec_witness :
    (Music.leave regS 5).1 = voiceStatesDel regS 5 ∧
    voiceStatesGet (Music.leave regS 5).1 5 = none ∧
    (Music._get_voice_state (Music.leave regS 5).1 5).1 = VoiceState.init := by
  obtain ⟨-, -, -, -, -, h6⟩ := registry_spec regS 5 (by decide)
  obtain ⟨a, b, c, d⟩ := h6 playingS rfl rfl
  exact ⟨a, b, d⟩

end CocoBot
